import Mathlib

/-!
Verification of `src/chdir.c` from luarocks-build-hooks: a single Lua C
function `chdir_lua` that queries the current working directory with
`getcwd(buf, PATH_MAX)` (where `buf` is a `static char buf[PATH_MAX]`),
then attempts `chdir(pathname)`, returning either the previous working
directory string (1 value) or `nil, strerror(errno), errno` (3 values).

The OS is modelled as an explicit state: the current working directory,
whether it is still queryable, which paths name existing accessible
directories, and the errno/strerror behaviour of the failing calls.
The static buffer is modelled explicitly as a `List Char` threaded
through calls, with `getcwd` writing the path plus a NUL terminator over
its prefix and `lua_pushstring` reading characters up to the first NUL.
-/

/-- The NUL character terminating C strings. -/
def NUL : Char := Char.ofNat 0

/-- `PATH_MAX` from `<limits.h>` (its common Linux value). -/
def PATH_MAX : Nat := 4096

/-- The `ERANGE` errno value: `getcwd` reports it when the current
working directory path does not fit into the supplied buffer. -/
def ERANGE : Nat := 34

/-- A Lua value as pushed onto the stack by `chdir_lua`: `lua_pushnil`,
`lua_pushstring`, or `lua_pushinteger` (errno values are nonnegative). -/
inductive LuaValue where
  | nil : LuaValue
  | str (s : String) : LuaValue
  | int (n : Nat) : LuaValue
deriving DecidableEq, Repr

/-- An OS call made by `chdir_lua`, recorded in an instrumentation trace:
either the `getcwd` query or the `chdir` transition with the exact
pathname string handed to the OS. -/
inductive OSOp where
  | getcwdOp : OSOp
  | chdirOp (path : String) : OSOp
deriving DecidableEq, Repr

/-- The operating-system state visible to `chdir_lua`:
  * `cwd`: the process's current working directory path;
  * `cwdValid`: whether the working directory can still be determined
    (false e.g. when it was deleted from under the process);
  * `accessible`: which pathname strings name an existing directory the
    process may enter (so `chdir` on them succeeds);
  * `getcwdErrno`: the errno a failing `getcwd` query reports when the
    directory is not queryable;
  * `chdirErrno`: the errno a failing `chdir` on a given path reports;
  * `strerror`: the OS's textual rendering of an errno value. -/
structure OS where
  cwd : String
  cwdValid : Bool
  accessible : String → Bool
  getcwdErrno : Nat
  chdirErrno : String → Nat
  strerror : Nat → String

/-- The result of the `getcwd(buf, PATH_MAX)` query: the current working
directory string on success, or the errno on failure.  It fails when the
directory can no longer be determined, or with `ERANGE` when the path
(including its NUL terminator) does not fit into `PATH_MAX` bytes. -/
def OS.getcwdCall (os : OS) : Except Nat String :=
  if !os.cwdValid then Except.error os.getcwdErrno
  else if PATH_MAX < os.cwd.length + 1 then Except.error ERANGE
  else Except.ok os.cwd

/-- The OS state after a successful `chdir pathname`: the working
directory becomes the named directory, which is again queryable. -/
def OS.applyChdir (os : OS) (pathname : String) : OS :=
  { os with cwd := pathname, cwdValid := true }

/-- `getcwd` writing the path and its NUL terminator over the prefix of
the static buffer; bytes beyond the terminator keep their old values. -/
def writeCwd (buf : List Char) (cwd : String) : List Char :=
  cwd.data ++ NUL :: buf.drop (cwd.length + 1)

/-- Whether a character is an ordinary C-string byte (not NUL). -/
def notNul (c : Char) : Bool := c ≠ NUL

/-- `lua_pushstring` reading a C string out of the buffer: the
characters up to (excluding) the first NUL. -/
def cString (buf : List Char) : String :=
  ⟨buf.takeWhile notNul⟩

/-- Shallow embedding of `chdir_lua` from `src/chdir.c`.  Inputs: the OS
state, the contents of the static buffer `buf`, and the `pathname`
argument.  Output: the list of Lua values returned, the OS state after
the call, the buffer contents after the call, and the trace of OS calls
made.  Mirrors the source: query `getcwd` into the static buffer; if it
fails return `nil, strerror(errno), errno` without attempting `chdir`;
otherwise call `chdir(pathname)` and return the previous directory
string read back out of the buffer on success, or
`nil, strerror(errno), errno` on failure. -/
def chdir_lua (os : OS) (buf : List Char) (pathname : String) :
    List LuaValue × OS × List Char × List OSOp :=
  match os.getcwdCall with
  | Except.error e =>
      ([LuaValue.nil, LuaValue.str (os.strerror e), LuaValue.int e],
        os, buf, [OSOp.getcwdOp])
  | Except.ok cwd =>
      let buf' := writeCwd buf cwd
      if os.accessible pathname then
        ([LuaValue.str (cString buf')],
          os.applyChdir pathname, buf', [OSOp.getcwdOp, OSOp.chdirOp pathname])
      else
        ([LuaValue.nil, LuaValue.str (os.strerror (os.chdirErrno pathname)),
            LuaValue.int (os.chdirErrno pathname)],
          os, buf', [OSOp.getcwdOp, OSOp.chdirOp pathname])

/-- The Lua values returned by a call. -/
def callValues (r : List LuaValue × OS × List Char × List OSOp) :
    List LuaValue := r.1

/-- The OS state after a call. -/
def callOS (r : List LuaValue × OS × List Char × List OSOp) : OS := r.2.1

/-- The static-buffer contents after a call. -/
def callBuf (r : List LuaValue × OS × List Char × List OSOp) :
    List Char := r.2.2.1

/-- The trace of OS calls made during a call. -/
def callTrace (r : List LuaValue × OS × List Char × List OSOp) :
    List OSOp := r.2.2.2

/- ### Buffer lemmas -/

/-- Reading a C string stops at the planted NUL terminator, so the bytes
retained beyond it are invisible. -/
theorem takeWhile_append_nul (l r : List Char) :
    (l ++ NUL :: r).takeWhile notNul = l.takeWhile notNul := by
  induction l with
  | nil =>
      rw [List.nil_append, List.takeWhile_nil, List.takeWhile_cons]
      have h : notNul NUL = false := by simp [notNul]
      rw [h]
      rfl
  | cons a l ih =>
      rw [List.cons_append, List.takeWhile_cons, List.takeWhile_cons]
      cases h : notNul a
      · rfl
      · rw [if_pos rfl, if_pos rfl, ih]

/-- A NUL-free character list is read back whole. -/
theorem takeWhile_notNul_of_not_mem (l : List Char) (h : NUL ∉ l) :
    l.takeWhile notNul = l := by
  induction l with
  | nil => rfl
  | cons a l ih =>
      rw [List.takeWhile_cons]
      have ha : notNul a = true := by
        simp only [notNul, ne_eq, decide_eq_true_eq]
        intro heq
        exact h (heq ▸ List.mem_cons_self a l)
      rw [ha, if_pos rfl, ih (fun hm => h (List.mem_cons_of_mem _ hm))]

/-- `takeWhile` never lengthens a list. -/
theorem length_takeWhile_le_len (p : Char → Bool) (l : List Char) :
    (l.takeWhile p).length ≤ l.length := by
  induction l with
  | nil => exact Nat.le_refl 0
  | cons a l ih =>
      rw [List.takeWhile_cons]
      cases h : p a
      · rw [if_neg (by simp [h])]
        exact Nat.zero_le _
      · rw [if_pos rfl]
        exact Nat.succ_le_succ ih

/-- Reading the buffer back after `getcwd` wrote `cwd` into it yields
exactly `cwd`, provided the path contains no NUL character. -/
theorem cString_writeCwd (buf : List Char) (cwd : String)
    (h : NUL ∉ cwd.data) : cString (writeCwd buf cwd) = cwd := by
  show (⟨(writeCwd buf cwd).takeWhile notNul⟩ : String) = cwd
  rw [writeCwd, takeWhile_append_nul, takeWhile_notNul_of_not_mem _ h]

/-- The string read back out of the buffer is never longer than the path
written into it. -/
theorem cString_writeCwd_length (buf : List Char) (cwd : String) :
    (cString (writeCwd buf cwd)).length ≤ cwd.length := by
  show ((writeCwd buf cwd).takeWhile notNul).length ≤ cwd.length
  rw [writeCwd, takeWhile_append_nul]
  exact length_takeWhile_le_len notNul cwd.data

/- ### Branch lemmas for `chdir_lua` -/

/-- The `getcwd` query succeeds exactly when the directory is still
queryable and its path (with terminator) fits in `PATH_MAX` bytes. -/
theorem getcwdCall_ok (os : OS) (hv : os.cwdValid = true)
    (hfit : os.cwd.length + 1 ≤ PATH_MAX) :
    os.getcwdCall = Except.ok os.cwd := by
  simp [OS.getcwdCall, hv, Nat.not_lt.mpr hfit]

/-- Every `getcwd` query either fails with some errno or returns the
current working directory. -/
theorem getcwdCall_cases (os : OS) :
    (∃ e, os.getcwdCall = Except.error e) ∨
      os.getcwdCall = Except.ok os.cwd := by
  cases hv : os.cwdValid
  · exact Or.inl ⟨os.getcwdErrno, by simp [OS.getcwdCall, hv]⟩
  · by_cases h2 : PATH_MAX < os.cwd.length + 1
    · exact Or.inl ⟨ERANGE, by simp [OS.getcwdCall, hv, h2]⟩
    · exact Or.inr (by simp [OS.getcwdCall, hv, h2])

/-- A successful `getcwd` query means the working directory path and
its terminator fit into the `PATH_MAX`-byte buffer. -/
theorem getcwdCall_ok_fits (os : OS)
    (hok : os.getcwdCall = Except.ok os.cwd) :
    os.cwd.length + 1 ≤ PATH_MAX := by
  by_contra hc
  rw [OS.getcwdCall] at hok
  cases hv : os.cwdValid
  · rw [hv] at hok
    simp at hok
  · rw [hv] at hok
    simp [Nat.lt_of_not_le hc] at hok

/-- Branch: the `getcwd` query fails, so the error triple is returned,
nothing else happens, and `chdir` is never called. -/
theorem chdir_lua_query_error (os : OS) (buf : List Char) (p : String)
    (e : Nat) (he : os.getcwdCall = Except.error e) :
    chdir_lua os buf p =
      ([LuaValue.nil, LuaValue.str (os.strerror e), LuaValue.int e],
        os, buf, [OSOp.getcwdOp]) := by
  unfold chdir_lua
  rw [he]

/-- Branch: the query succeeds and the target is accessible, so the
previous directory read back from the buffer is returned and the
working directory becomes the target. -/
theorem chdir_lua_ok_acc (os : OS) (buf : List Char) (p : String)
    (hok : os.getcwdCall = Except.ok os.cwd) (ha : os.accessible p = true) :
    chdir_lua os buf p =
      ([LuaValue.str (cString (writeCwd buf os.cwd))],
        os.applyChdir p, writeCwd buf os.cwd,
        [OSOp.getcwdOp, OSOp.chdirOp p]) := by
  unfold chdir_lua
  rw [hok]
  simp [ha]

/-- Branch: the query succeeds but the `chdir` call fails, so the error
triple for the `chdir` errno is returned and the OS state is unchanged
(only the module-level buffer was written). -/
theorem chdir_lua_ok_inacc (os : OS) (buf : List Char) (p : String)
    (hok : os.getcwdCall = Except.ok os.cwd) (ha : os.accessible p = false) :
    chdir_lua os buf p =
      ([LuaValue.nil, LuaValue.str (os.strerror (os.chdirErrno p)),
          LuaValue.int (os.chdirErrno p)],
        os, writeCwd buf os.cwd, [OSOp.getcwdOp, OSOp.chdirOp p]) := by
  unfold chdir_lua
  rw [hok]
  simp [ha]

/-- Reading the buffer back does not depend on the bytes it held before
`getcwd` wrote into it. -/
theorem cString_writeCwd_indep (b1 b2 : List Char) (cwd : String) :
    cString (writeCwd b1 cwd) = cString (writeCwd b2 cwd) := by
  show (⟨_⟩ : String) = ⟨_⟩
  rw [writeCwd, writeCwd, takeWhile_append_nul, takeWhile_append_nul]

/- ### Concrete OS instances used by the witnesses -/

/-- A healthy OS: the working directory is `/home/user`, a handful of
directories are accessible, failing calls report errno 2 (`ENOENT`)
with its usual message. -/
def osGood : OS where
  cwd := "/home/user"
  cwdValid := true
  accessible := fun p => p == "/a" || p == "/b" || p == "/tmp" || p == "/home/user"
  getcwdErrno := 2
  chdirErrno := fun _ => 2
  strerror := fun e => if e = 0 then "Success" else "No such file or directory"

/-- The same OS after the current working directory was deleted from
under the process, so the `getcwd` query fails. -/
def osBad : OS := { osGood with cwdValid := false }

/-- The same OS with a current working directory path of `PATH_MAX`
characters, which no longer fits into the buffer with its terminator. -/
def osLong : OS := { osGood with cwd := ⟨List.replicate PATH_MAX 'a'⟩ }

/- ### Claim theorems -/

/-- Claim C1: for every directory `D` that exists and is accessible, if
the process's current working directory is `C` (queryable, NUL-free,
fitting the buffer) when `chdir_lua` is called on `D`, the call returns
the single success value carrying exactly the string `C`, and afterward
the process's current working directory equals `D`. -/
theorem C1_success_path (os : OS) (buf : List Char) (D C : String)
    (hC : os.cwd = C) (hv : os.cwdValid = true)
    (hfit : C.length + 1 ≤ PATH_MAX) (hnul : NUL ∉ C.data)
    (hD : os.accessible D = true) :
    callValues (chdir_lua os buf D) = [LuaValue.str C] ∧
      (callOS (chdir_lua os buf D)).cwd = D := by
  have hok : os.getcwdCall = Except.ok os.cwd :=
    getcwdCall_ok os hv (by rw [hC]; exact hfit)
  rw [callValues, callOS, chdir_lua_ok_acc os buf D hok hD]
  constructor
  · rw [hC, cString_writeCwd buf C hnul]
  · rfl

/-- Witness for C1 at a concrete OS and target. -/
theorem C1_success_path_witness :
    callValues (chdir_lua osGood [] "/tmp") = [LuaValue.str "/home/user"] ∧
      (callOS (chdir_lua osGood [] "/tmp")).cwd = "/tmp" :=
  C1_success_path osGood [] "/tmp" "/home/user" rfl rfl (by decide)
    (by decide) (by decide)

/-- Claim C2: if the initial `getcwd` query fails, the call returns the
failure triple built from that query's errno, the OS state (hence the
working directory) is unchanged, and the `chdir` transition is never
attempted. -/
theorem C2_query_failure (os : OS) (buf : List Char) (p : String)
    (e : Nat) (he : os.getcwdCall = Except.error e) :
    callValues (chdir_lua os buf p) =
        [LuaValue.nil, LuaValue.str (os.strerror e), LuaValue.int e] ∧
      callOS (chdir_lua os buf p) = os ∧
      (∀ q, OSOp.chdirOp q ∉ callTrace (chdir_lua os buf p)) := by
  rw [callValues, callOS, callTrace, chdir_lua_query_error os buf p e he]
  refine ⟨rfl, rfl, ?_⟩
  intro q hq
  simp at hq

/-- Witness for C2: the OS whose working directory was deleted. -/
theorem C2_query_failure_witness :
    callValues (chdir_lua osBad [] "/tmp") =
        [LuaValue.nil, LuaValue.str (osBad.strerror 2), LuaValue.int 2] ∧
      callOS (chdir_lua osBad [] "/tmp") = osBad ∧
      (∀ q, OSOp.chdirOp q ∉ callTrace (chdir_lua osBad [] "/tmp")) :=
  C2_query_failure osBad [] "/tmp" 2 rfl

/-- Claim C3: when the target path does not name an existing accessible
directory, the call returns the failure triple with a non-empty message
and a nonzero code (as the OS reports them), and the OS state — in
particular the working directory — is exactly what it was before. -/
theorem C3_nonexistent_target (os : OS) (buf : List Char) (p : String)
    (hv : os.cwdValid = true) (hfit : os.cwd.length + 1 ≤ PATH_MAX)
    (ha : os.accessible p = false)
    (hcode : os.chdirErrno p ≠ 0)
    (hmsg : os.strerror (os.chdirErrno p) ≠ "") :
    (∃ m k, callValues (chdir_lua os buf p) =
        [LuaValue.nil, LuaValue.str m, LuaValue.int k] ∧ m ≠ "" ∧ k ≠ 0) ∧
      callOS (chdir_lua os buf p) = os := by
  have hok : os.getcwdCall = Except.ok os.cwd := getcwdCall_ok os hv hfit
  rw [callValues, callOS, chdir_lua_ok_inacc os buf p hok ha]
  exact ⟨⟨os.strerror (os.chdirErrno p), os.chdirErrno p, rfl, hmsg, hcode⟩,
    rfl⟩

/-- Witness for C3 at a nonexistent path. -/
theorem C3_nonexistent_target_witness :
    (∃ m k, callValues (chdir_lua osGood [] "/path/does/not/exist") =
        [LuaValue.nil, LuaValue.str m, LuaValue.int k] ∧ m ≠ "" ∧ k ≠ 0) ∧
      callOS (chdir_lua osGood [] "/path/does/not/exist") = osGood :=
  C3_nonexistent_target osGood [] "/path/does/not/exist" rfl (by decide)
    (by decide) (by decide) (by decide)

/-- Claim C4: every invocation returns exactly one of the two result
forms — the single success value or the failure triple — and never a
mixture of the two. -/
theorem C4_exactly_one_form (os : OS) (buf : List Char) (p : String) :
    ((∃ prev, callValues (chdir_lua os buf p) = [LuaValue.str prev]) ∧
        ¬(∃ m k, callValues (chdir_lua os buf p) =
            [LuaValue.nil, LuaValue.str m, LuaValue.int k])) ∨
      ((∃ m k, callValues (chdir_lua os buf p) =
          [LuaValue.nil, LuaValue.str m, LuaValue.int k]) ∧
        ¬(∃ prev, callValues (chdir_lua os buf p) = [LuaValue.str prev])) := by
  rcases getcwdCall_cases os with ⟨e, he⟩ | hok
  · right
    rw [callValues, chdir_lua_query_error os buf p e he]
    refine ⟨⟨_, _, rfl⟩, ?_⟩
    rintro ⟨prev, h⟩
    simp at h
  · cases ha : os.accessible p
    · right
      rw [callValues, chdir_lua_ok_inacc os buf p hok ha]
      refine ⟨⟨_, _, rfl⟩, ?_⟩
      rintro ⟨prev, h⟩
      simp at h
    · left
      rw [callValues, chdir_lua_ok_acc os buf p hok ha]
      refine ⟨⟨_, rfl⟩, ?_⟩
      rintro ⟨m, k, h⟩
      simp at h

/-- Claim C5: for accessible directories `A` and `B` (NUL-free `A`, both
fitting the buffer, starting from a queryable state), the sequence
`chdir_lua A; chdir_lua B; chdir_lua r` — where `r` is the success value
returned by the second call — leaves the working directory equal to
`A`. -/
theorem C5_round_trip (os : OS) (b0 : List Char) (A B : String)
    (hv : os.cwdValid = true) (hfit0 : os.cwd.length + 1 ≤ PATH_MAX)
    (hA : os.accessible A = true) (hB : os.accessible B = true)
    (hAfit : A.length + 1 ≤ PATH_MAX) (hBfit : B.length + 1 ≤ PATH_MAX)
    (hAnul : NUL ∉ A.data) :
    ∀ os1 b1 os2 b2 r,
      os1 = callOS (chdir_lua os b0 A) → b1 = callBuf (chdir_lua os b0 A) →
      os2 = callOS (chdir_lua os1 b1 B) → b2 = callBuf (chdir_lua os1 b1 B) →
      callValues (chdir_lua os1 b1 B) = [LuaValue.str r] →
      (callOS (chdir_lua os2 b2 r)).cwd = A := by
  intro os1 b1 os2 b2 r h1 hb1 h2 hb2 hr
  have hok0 : os.getcwdCall = Except.ok os.cwd := getcwdCall_ok os hv hfit0
  have e1 := chdir_lua_ok_acc os b0 A hok0 hA
  have hos1 : os1 = os.applyChdir A := by rw [h1, e1]; rfl
  have hok1 : os1.getcwdCall = Except.ok os1.cwd :=
    getcwdCall_ok os1 (by rw [hos1]; rfl) (by rw [hos1]; exact hAfit)
  have haB : os1.accessible B = true := by rw [hos1]; exact hB
  have e2 := chdir_lua_ok_acc os1 b1 B hok1 haB
  have hval2 : callValues (chdir_lua os1 b1 B) = [LuaValue.str A] := by
    rw [callValues, e2, hos1]
    show [LuaValue.str (cString (writeCwd b1 A))] = [LuaValue.str A]
    rw [cString_writeCwd b1 A hAnul]
  have hrA : r = A := by
    rw [hval2] at hr
    simp only [List.cons.injEq, LuaValue.str.injEq, and_true] at hr
    exact hr.symm
  have hos2 : os2 = os1.applyChdir B := by rw [h2, e2]; rfl
  have hok2 : os2.getcwdCall = Except.ok os2.cwd :=
    getcwdCall_ok os2 (by rw [hos2]; rfl) (by rw [hos2]; exact hBfit)
  have haR : os2.accessible r = true := by
    rw [hos2, hos1, hrA]
    exact hA
  have e3 := chdir_lua_ok_acc os2 b2 r hok2 haR
  rw [callOS, e3]
  show (os2.applyChdir r).cwd = A
  rw [hrA]
  rfl

/-- Witness for C5 at concrete directories. -/
theorem C5_round_trip_witness :
    (callOS (chdir_lua
        (callOS (chdir_lua (callOS (chdir_lua osGood [] "/a"))
          (callBuf (chdir_lua osGood [] "/a")) "/b"))
        (callBuf (chdir_lua (callOS (chdir_lua osGood [] "/a"))
          (callBuf (chdir_lua osGood [] "/a")) "/b"))
        "/a")).cwd = "/a" :=
  C5_round_trip osGood [] "/a" "/b" rfl (by decide) (by decide) (by decide)
    (by decide) (by decide) (by decide)
    (callOS (chdir_lua osGood [] "/a")) (callBuf (chdir_lua osGood [] "/a"))
    (callOS (chdir_lua (callOS (chdir_lua osGood [] "/a"))
      (callBuf (chdir_lua osGood [] "/a")) "/b"))
    (callBuf (chdir_lua (callOS (chdir_lua osGood [] "/a"))
      (callBuf (chdir_lua osGood [] "/a")) "/b"))
    "/a" rfl rfl rfl rfl (by decide)

/-- Claim C6: the pathname argument — any string, the empty string and
overlong strings included — is handed unmodified to the OS `chdir`
call (no length or encoding validation of its own), and when that call
fails its errno message and code are surfaced unmodified. -/
theorem C6_passthrough (os : OS) (buf : List Char) (p : String)
    (hv : os.cwdValid = true) (hfit : os.cwd.length + 1 ≤ PATH_MAX) :
    callTrace (chdir_lua os buf p) = [OSOp.getcwdOp, OSOp.chdirOp p] ∧
      (os.accessible p = false →
        callValues (chdir_lua os buf p) =
          [LuaValue.nil, LuaValue.str (os.strerror (os.chdirErrno p)),
            LuaValue.int (os.chdirErrno p)]) := by
  have hok : os.getcwdCall = Except.ok os.cwd := getcwdCall_ok os hv hfit
  cases ha : os.accessible p
  · rw [callTrace, callValues, chdir_lua_ok_inacc os buf p hok ha]
    exact ⟨rfl, fun _ => rfl⟩
  · rw [callTrace, callValues, chdir_lua_ok_acc os buf p hok ha]
    exact ⟨rfl, fun h => Bool.noConfusion h⟩

/-- Witness for C6 at the empty pathname. -/
theorem C6_passthrough_witness :
    callTrace (chdir_lua osGood [] "") = [OSOp.getcwdOp, OSOp.chdirOp ""] ∧
      (osGood.accessible "" = false →
        callValues (chdir_lua osGood [] "") =
          [LuaValue.nil,
            LuaValue.str (osGood.strerror (osGood.chdirErrno "")),
            LuaValue.int (osGood.chdirErrno "")]) :=
  C6_passthrough osGood [] "" rfl (by decide)

/-- Claim C7: the only data the C function retains across calls is the
static buffer, and the returned Lua values, the resulting OS state and
the call trace are all independent of the buffer's previous contents:
two runs differing only in earlier-call history (hence only in the
retained buffer) produce the same result. -/
theorem C7_no_cross_call_retention (os : OS) (b1 b2 : List Char)
    (p : String) :
    callValues (chdir_lua os b1 p) = callValues (chdir_lua os b2 p) ∧
      callOS (chdir_lua os b1 p) = callOS (chdir_lua os b2 p) ∧
      callTrace (chdir_lua os b1 p) = callTrace (chdir_lua os b2 p) := by
  rcases getcwdCall_cases os with ⟨e, he⟩ | hok
  · rw [callValues, callOS, callTrace, chdir_lua_query_error os b1 p e he,
      chdir_lua_query_error os b2 p e he]
    exact ⟨rfl, rfl, rfl⟩
  · cases ha : os.accessible p
    · rw [callValues, callOS, callTrace, chdir_lua_ok_inacc os b1 p hok ha,
        chdir_lua_ok_inacc os b2 p hok ha]
      exact ⟨rfl, rfl, rfl⟩
    · rw [callValues, callOS, callTrace, chdir_lua_ok_acc os b1 p hok ha,
        chdir_lua_ok_acc os b2 p hok ha]
      exact ⟨congrArg (fun s => [LuaValue.str s])
        (cString_writeCwd_indep b1 b2 os.cwd), rfl, rfl⟩

/-- Claim C8: on every OS-level failure — of the working-directory query
or of the directory transition — the function still returns, handing the
caller the discriminated failure triple built from the failing errno
(nothing swallowed), and the call trace shows each OS call made at most
once (nothing retried). -/
theorem C8_no_fatal_error (os : OS) (buf : List Char) (p : String)
    (hfail : (∃ e, os.getcwdCall = Except.error e) ∨
      os.accessible p = false) :
    (∃ k, callValues (chdir_lua os buf p) =
        [LuaValue.nil, LuaValue.str (os.strerror k), LuaValue.int k]) ∧
      (callTrace (chdir_lua os buf p) = [OSOp.getcwdOp] ∨
        callTrace (chdir_lua os buf p) =
          [OSOp.getcwdOp, OSOp.chdirOp p]) := by
  rcases getcwdCall_cases os with ⟨e, he⟩ | hok
  · rw [callValues, callTrace, chdir_lua_query_error os buf p e he]
    exact ⟨⟨e, rfl⟩, Or.inl rfl⟩
  · rcases hfail with ⟨e, he⟩ | ha
    · rw [hok] at he
      cases he
    · rw [callValues, callTrace, chdir_lua_ok_inacc os buf p hok ha]
      exact ⟨⟨os.chdirErrno p, rfl⟩, Or.inr rfl⟩

/-- Witness for C8: a failing transition on the healthy OS. -/
theorem C8_no_fatal_error_witness :
    (∃ k, callValues (chdir_lua osGood [] "/nope") =
        [LuaValue.nil, LuaValue.str (osGood.strerror k), LuaValue.int k]) ∧
      (callTrace (chdir_lua osGood [] "/nope") = [OSOp.getcwdOp] ∨
        callTrace (chdir_lua osGood [] "/nope") =
          [OSOp.getcwdOp, OSOp.chdirOp "/nope"]) :=
  C8_no_fatal_error osGood [] "/nope" (Or.inr (by decide))

/-- Claim C9: every failure triple is internally consistent — its
message and code come from the one failing call's errno, the message
being the OS's textual rendering of exactly that code. -/
theorem C9_message_code_consistent (os : OS) (buf : List Char)
    (p : String) (m : String) (k : Nat)
    (h : callValues (chdir_lua os buf p) =
      [LuaValue.nil, LuaValue.str m, LuaValue.int k]) :
    m = os.strerror k ∧
      ((∃ e, os.getcwdCall = Except.error e ∧ k = e) ∨
        (os.getcwdCall = Except.ok os.cwd ∧ k = os.chdirErrno p)) := by
  rcases getcwdCall_cases os with ⟨e, he⟩ | hok
  · rw [callValues, chdir_lua_query_error os buf p e he] at h
    simp only [List.cons.injEq, LuaValue.str.injEq, LuaValue.int.injEq,
      and_true, true_and] at h
    exact ⟨h.2 ▸ h.1.symm, Or.inl ⟨e, he, h.2.symm⟩⟩
  · cases ha : os.accessible p
    · rw [callValues, chdir_lua_ok_inacc os buf p hok ha] at h
      simp only [List.cons.injEq, LuaValue.str.injEq, LuaValue.int.injEq,
        and_true, true_and] at h
      exact ⟨h.2 ▸ h.1.symm, Or.inr ⟨hok, h.2.symm⟩⟩
    · rw [callValues, chdir_lua_ok_acc os buf p hok ha] at h
      cases h

/-- Witness for C9: the failure triple of a deleted working directory. -/
theorem C9_message_code_consistent_witness :
    "No such file or directory" = osBad.strerror 2 ∧
      ((∃ e, osBad.getcwdCall = Except.error e ∧ 2 = e) ∨
        (osBad.getcwdCall = Except.ok osBad.cwd ∧
          2 = osBad.chdirErrno "/tmp")) :=
  C9_message_code_consistent osBad [] "/tmp"
    "No such file or directory" 2 (by decide)

/-- Claim C10: every success value is strictly shorter than `PATH_MAX`
(it fits the buffer with its terminator), and when the current working
directory no longer fits, the call returns the query-failure triple
(with `ERANGE`) rather than a truncated previous path. -/
theorem C10_success_fits (os : OS) (buf : List Char) (p : String) :
    (∀ prev, callValues (chdir_lua os buf p) = [LuaValue.str prev] →
        prev.length + 1 ≤ PATH_MAX) ∧
      (os.cwdValid = true → PATH_MAX < os.cwd.length + 1 →
        callValues (chdir_lua os buf p) =
          [LuaValue.nil, LuaValue.str (os.strerror ERANGE),
            LuaValue.int ERANGE]) := by
  constructor
  · intro prev h
    rcases getcwdCall_cases os with ⟨e, he⟩ | hok
    · rw [callValues, chdir_lua_query_error os buf p e he] at h
      cases h
    · cases ha : os.accessible p
      · rw [callValues, chdir_lua_ok_inacc os buf p hok ha] at h
        cases h
      · rw [callValues, chdir_lua_ok_acc os buf p hok ha] at h
        simp only [List.cons.injEq, LuaValue.str.injEq, and_true] at h
        have hfit : os.cwd.length + 1 ≤ PATH_MAX := getcwdCall_ok_fits os hok
        calc prev.length + 1
            = (cString (writeCwd buf os.cwd)).length + 1 := by rw [h]
          _ ≤ os.cwd.length + 1 :=
              Nat.succ_le_succ (cString_writeCwd_length buf os.cwd)
          _ ≤ PATH_MAX := hfit
  · intro hv hlong
    have he : os.getcwdCall = Except.error ERANGE := by
      simp [OS.getcwdCall, hv, hlong]
    rw [callValues, chdir_lua_query_error os buf p ERANGE he]

/-- The overlong working directory of `osLong` has exactly `PATH_MAX`
characters. -/
theorem osLong_cwd_length : osLong.cwd.length = PATH_MAX := by
  show (List.replicate PATH_MAX 'a').length = PATH_MAX
  simp

/-- Witness for C10: the overlong working directory yields the `ERANGE`
failure triple. -/
theorem C10_success_fits_witness :
    callValues (chdir_lua osLong [] "/tmp") =
      [LuaValue.nil, LuaValue.str (osLong.strerror ERANGE),
        LuaValue.int ERANGE] :=
  (C10_success_fits osLong [] "/tmp").2 rfl
    (by rw [osLong_cwd_length]; exact Nat.lt_succ_self PATH_MAX)
